import Mathlib

/-!
Verification of the LinkedIn content-generator repository.

The profile store of `Home.py` keeps profiles as Python dictionaries inside
`st.session_state.profiles`.  We embed Python/JSON values as the mutual
inductive family `PyVal` / `PyList` / `PyDict`: a `PyDict` is the sequence of
key/value entries of a dictionary (the dictionaries built by the source always
have distinct keys, and lookup takes the first match, exactly as a Python dict
does), and a `PyList` is a Python list stored inside a value.  Python lists
that are only local variables of a function are embedded as Lean lists.
-/

mutual

inductive PyVal where
  | vstr (s : String)
  | vint (n : Int)
  | vbool (b : Bool)
  | vnull
  | vlist (l : PyList)
  | vdict (d : PyDict)

inductive PyList where
  | nil
  | cons (hd : PyVal) (tl : PyList)

inductive PyDict where
  | nil
  | cons (k : String) (v : PyVal) (tl : PyDict)

end

/-! Python `==` is structural equality on these values. -/

mutual

def PyVal.beq : PyVal → PyVal → Bool
  | .vstr a, .vstr b => a == b
  | .vint a, .vint b => a == b
  | .vbool a, .vbool b => a == b
  | .vnull, .vnull => true
  | .vlist a, .vlist b => PyList.beq a b
  | .vdict a, .vdict b => PyDict.beq a b
  | _, _ => false

def PyList.beq : PyList → PyList → Bool
  | .nil, .nil => true
  | .cons a as, .cons b bs => PyVal.beq a b && PyList.beq as bs
  | _, _ => false

def PyDict.beq : PyDict → PyDict → Bool
  | .nil, .nil => true
  | .cons k1 v1 as, .cons k2 v2 bs => k1 == k2 && PyVal.beq v1 v2 && PyDict.beq as bs
  | _, _ => false

end

instance : BEq PyVal := ⟨PyVal.beq⟩

def PyList.ofList : List PyVal → PyList
  | [] => .nil
  | v :: rest => .cons v (PyList.ofList rest)

def PyList.length : PyList → Nat
  | .nil => 0
  | .cons _ tl => 1 + PyList.length tl

def PyDict.ofList : List (String × PyVal) → PyDict
  | [] => .nil
  | (k, v) :: rest => .cons k v (PyDict.ofList rest)

def PyDict.length : PyDict → Nat
  | .nil => 0
  | .cons _ _ tl => 1 + PyDict.length tl

/-- `d.get(k)` for a Python dict: the value of the entry with key `k`, or
`none` (Python `None`) when the key is absent. -/
def PyDict.lookup : PyDict → String → Option PyVal
  | .nil, _ => none
  | .cons k1 v tl, k => if k1 == k then some v else PyDict.lookup tl k

/-- `d.get(k, default)` for a Python dict. -/
def PyDict.getD (d : PyDict) (k : String) (default : PyVal) : PyVal :=
  (d.lookup k).getD default

/-- `k in d` for a Python dict. -/
def PyDict.hasKey : PyDict → String → Bool
  | .nil, _ => false
  | .cons k1 _ tl, k => k1 == k || PyDict.hasKey tl k

/-- Models Python `str()`.  On strings (the only case the JSON items of this
repository reach in the claims below) `str` is the identity; other values are
given an abbreviated rendering, on which nothing below depends. -/
def pyStrOf : PyVal → String
  | .vstr s => s
  | .vint n => toString n
  | .vbool b => if b then "True" else "False"
  | .vnull => "None"
  | .vlist l => "[list of " ++ toString l.length ++ " values]"
  | .vdict d => "\x7bdict of " ++ toString d.length ++ " entries\x7d"

@[simp]
theorem pyval_beq_vstr (a b : String) : (PyVal.vstr a == PyVal.vstr b) = (a == b) := rfl

@[simp]
theorem option_pyval_beq_some (a b : PyVal) :
    ((some a : Option PyVal) == some b) = (a == b) := rfl

/-! ## The session-state profile store (`Home.py`) -/

/-- `Home.py` `load_profile_data`: scan `st.session_state.profiles` for the
first profile whose `profile_id` entry equals `profile_id`. -/
def load_profile_data (store : List PyDict) (profile_id : String) : Option PyDict :=
  store.find? (fun p => p.lookup "profile_id" == some (.vstr profile_id))

/-- `Home.py` `save_profile_data`: replace the first stored profile whose
`profile_id` equals the one of `profile_data` with `profile_data` itself
(`profiles[i] = profile_data`, a whole-record replacement), or append it when
no profile matches.  The Python function falls off the end without a `return`
statement, so its value is `None`; callers that test
`if save_profile_data(...)` therefore always take the falsy branch. -/
def save_profile_data (store : List PyDict) (profile_data : PyDict) : List PyDict :=
  match store with
  | [] => [profile_data]
  | p :: rest =>
    if p.lookup "profile_id" == profile_data.lookup "profile_id" then
      profile_data :: rest
    else
      p :: save_profile_data rest profile_data

/-! ## Profile creation (`Home.py`, `profile_form` submit handler) -/

/-- Python `str.lower()` (restricted to the per-character lowering that the
ASCII names used here exercise). -/
def pyLower (s : String) : String := ⟨s.data.map Char.toLower⟩

/-- The dictionary built for a new profile:
`profile_id` is `f"{first.lower()}_{last.lower()}_{timestamp}"`. -/
def new_profile (first_name last_name email linkedin_url ts : String) : PyDict :=
  PyDict.ofList
    [("profile_id", .vstr (pyLower first_name ++ "_" ++ pyLower last_name ++ "_" ++ ts)),
     ("first_name", .vstr first_name),
     ("last_name", .vstr last_name),
     ("email", .vstr email),
     ("linkedin_url", .vstr linkedin_url)]

/-- The `profile_form` submit handler: `if first_name and last_name:` (Python
string truthiness, i.e. both nonempty) build the new profile and save it,
otherwise show the inline error "First name and last name are required" and
save nothing.  The returned `Bool` is `true` exactly when a profile was
created. -/
def profile_form_submit (store : List PyDict)
    (first_name last_name email linkedin_url ts : String) : List PyDict × Bool :=
  if first_name ≠ "" ∧ last_name ≠ "" then
    (save_profile_data store (new_profile first_name last_name email linkedin_url ts), true)
  else
    (store, false)

/-! ## Store lemmas -/

theorem load_save_self (store : List PyDict) (d : PyDict) (pid : String)
    (h : d.lookup "profile_id" = some (.vstr pid)) :
    load_profile_data (save_profile_data store d) pid = some d := by
  induction store with
  | nil =>
    simp [save_profile_data, load_profile_data, List.find?, h]
  | cons p rest ih =>
    by_cases hp : p.lookup "profile_id" == d.lookup "profile_id"
    · rw [h] at hp
      simp [save_profile_data, load_profile_data, List.find?, h, hp]
    · rw [h] at hp
      simp only [save_profile_data, h, Bool.not_eq_true] at hp ⊢
      rw [hp]
      simp only [Bool.false_eq_true, if_false, load_profile_data, List.find?, hp]
      exact ih

theorem save_save_self (store : List PyDict) (d : PyDict) (pid : String)
    (h : d.lookup "profile_id" = some (.vstr pid)) :
    save_profile_data (save_profile_data store d) d = save_profile_data store d := by
  have hself : (d.lookup "profile_id" == d.lookup "profile_id") = true := by
    rw [h]; simp
  induction store with
  | nil => simp [save_profile_data, hself]
  | cons p rest ih =>
    by_cases hp : p.lookup "profile_id" == d.lookup "profile_id"
    · simp [save_profile_data, hp, hself]
    · simp only [save_profile_data, hp, if_false, Bool.false_eq_true, ih]

/-! ## Content pillar generation (`Home.py`, `generate_pillars`) -/

def PyList.toList : PyList → List PyVal
  | .nil => []
  | .cons v tl => v :: PyList.toList tl

/-- The whitespace characters stripped by Python `str.strip()`. -/
def isPySpace (c : Char) : Bool :=
  c == ' ' || c == '\t' || c == '\n' || c == '\r' || c == Char.ofNat 11 || c == Char.ofNat 12

def pyStripChars (l : List Char) : List Char :=
  ((l.dropWhile isPySpace).reverse.dropWhile isPySpace).reverse

/-- Python `str.strip()` with no argument. -/
def pyStrip (s : String) : String := ⟨pyStripChars s.data⟩

def dquoteChar : Char := Char.ofNat 34

def squoteChar : Char := Char.ofNat 39

/-- The per-line extraction of `generate_pillars`: if the line contains a
double quote, `line.split('"')[1]` (the text between the first two double
quotes, or after the first if it is the only one); otherwise the same with
single quotes; otherwise the line contributes nothing.  When the quote
character occurs in the line, the Python split has at least two parts, so
index 1 exists and the `getD` default is unreachable. -/
def extract_theme (line : String) : Option String :=
  if line.contains dquoteChar then some ((line.splitOn ⟨[dquoteChar]⟩).getD 1 "")
  else if line.contains squoteChar then some ((line.splitOn ⟨[squoteChar]⟩).getD 1 "")
  else none

/-- The response processing of `generate_pillars`: strip the response, walk
its lines collecting one quoted substring per quoted line, then append empty
strings while fewer than 3 themes (`while len(themes) < 3`) and keep the
first 3 (`themes[:3]`). -/
def parse_pillars (raw : String) : List String :=
  let content := pyStrip raw
  let themes := (content.splitOn "\n").filterMap extract_theme
  (themes ++ List.replicate (3 - themes.length) "").take 3

/-- `Home.py` `generate_pillars`: load the profile (fail when absent), call
the model (`modelReply`, `.error` when the API call raises), parse the
response and save `content_pillars`; this handler returns `True` directly
after the save call. -/
def generate_pillars (store : List PyDict) (pid : String)
    (modelReply : Except Unit String) : List PyDict × Bool :=
  match load_profile_data store pid with
  | none => (store, false)
  | some _ =>
    match modelReply with
    | .error _ => (store, false)
    | .ok raw =>
      let themes := parse_pillars raw
      (save_profile_data store
        (PyDict.ofList [("profile_id", .vstr pid),
                        ("content_pillars", .vlist (PyList.ofList (themes.map .vstr)))]),
       true)

/-! ## Batched prompt generation (`Home.py`, `generate_prompts`) -/

/-- `num_batches = (TOTAL_PROMPTS + BATCH_SIZE - 1) // BATCH_SIZE` with
`BATCH_SIZE = 5`. -/
def num_batches (total : Nat) : Nat := (total + 5 - 1) / 5

/-- The batch loop of `generate_prompts`: one iteration per
`batch_start in range(0, TOTAL_PROMPTS, BATCH_SIZE)`, i.e. exactly
`num_batches total` iterations, each issuing one model call.  `responses i`
is the outcome of the call of batch `i`: `.error` when the API call raises or
`json.loads` fails (the batch is skipped and the loop continues), `.ok v` the
parsed JSON.  When `v` is not a JSON array the batch is likewise skipped with
a warning; otherwise its items are appended to `all_prompts`. -/
def collect_batches (total : Nat) (responses : Nat → Except Unit PyVal) : List PyVal :=
  (List.range (num_batches total)).foldl
    (fun all_prompts i =>
      match responses i with
      | .error _ => all_prompts
      | .ok v =>
        match v with
        | .vlist items => all_prompts ++ items.toList
        | _ => all_prompts)
    []

/-- The record saved for one raw prompt item: `{"prompt": str(p["prompt"]),
"hook": str(p["hook"]), "type_of_post": str(p["type_of_post"])}`.  The
indexed keys were just checked to be present, so the `getD` defaults are
unreachable. -/
def formatted_record (d : PyDict) : PyVal :=
  .vdict (PyDict.ofList
    [("prompt", .vstr (pyStrOf (d.getD "prompt" .vnull))),
     ("hook", .vstr (pyStrOf (d.getD "hook" .vnull))),
     ("type_of_post", .vstr (pyStrOf (d.getD "type_of_post" .vnull)))])

/-- The save-time filter of `generate_prompts`: keep the items that are
dictionaries carrying all of `prompt`, `hook` and `type_of_post`, stringify
those three fields, drop everything else. -/
def format_prompts (all_prompts : List PyVal) : List PyVal :=
  all_prompts.filterMap (fun p =>
    match p with
    | .vdict d =>
      if d.hasKey "prompt" && d.hasKey "hook" && d.hasKey "type_of_post" then
        some (formatted_record d)
      else none
    | _ => none)

/-- `Home.py` `generate_prompts`: load the profile (fail when absent), run
the batch loop, and if at least one item was accumulated, save the formatted
list.  The save call is written `if save_profile_data(...)`; the call mutates
the store and then its Python return value `None` is tested, which is falsy,
so the handler shows "Failed to save prompts to database" and returns
`False` — the `return True` branch is unreachable.  With zero accumulated
items it warns "No valid prompts were generated" and returns `False`. -/
def generate_prompts (store : List PyDict) (pid : String) (total : Nat)
    (responses : Nat → Except Unit PyVal) : List PyDict × Bool :=
  match load_profile_data store pid with
  | none => (store, false)
  | some _ =>
    let all_prompts := collect_batches total responses
    if all_prompts.length > 0 then
      (save_profile_data store
        (PyDict.ofList [("profile_id", .vstr pid),
                        ("linkedin_prompts", .vlist (PyList.ofList (format_prompts all_prompts)))]),
       false)
    else
      (store, false)

/-- The six post-type labels of the category display of `generate_prompts`. -/
def six_categories : List String :=
  ["First-Person Anecdote", "Listicle with a Hook", "Educational How-To Post",
   "Thought Leadership/Opinion Piece", "Case Study/Success Story",
   "Engagement-Driven Question"]

/-- `p.get('type_of_post', '')` as used by the category grouping.  On a
non-dictionary item the Python attribute access raises instead (the claims
below only concern dictionary records). -/
def type_of_post_of (p : PyVal) : PyVal :=
  match p with
  | .vdict d => d.getD "type_of_post" (.vstr "")
  | _ => .vstr ""

/-- The category display of `generate_prompts`: `category_prompts` maps each
of the six labels to the batch items whose `type_of_post` equals that label
(`if post_type in category_prompts: category_prompts[post_type].append(p)`);
an item with any other label lands in no bucket. -/
def category_prompts_bucket (batch_prompts : List PyVal) (category : String) : List PyVal :=
  batch_prompts.filter (fun p => type_of_post_of p == .vstr category)

/-! ## Strategy feedback and undo (`Home.py`, Content Strategy section) -/

/-- The state the strategy-feedback widgets act on: the profile store plus the
single-slot snapshot `st.session_state.previous_strategy`. -/
structure StrategySection where
  store : List PyDict
  previous_strategy : String

/-- The "Update Based on Feedback" handler of the strategy section: with empty
feedback (`if feedback:` is falsy) it only warns "Please provide feedback
before updating".  Otherwise it snapshots the displayed text into
`st.session_state.previous_strategy`, calls the model and, on success, saves
`content_strategy` (the save call's `None` result then shows an error
message, but the record was written); when the call raises, the snapshot has
already been overwritten and the store is untouched. -/
def update_strategy_feedback_btn (s : StrategySection) (pid strategy_text feedback : String)
    (modelReply : Except Unit String) : StrategySection :=
  if feedback ≠ "" then
    let s1 : StrategySection := { s with previous_strategy := strategy_text }
    match modelReply with
    | .ok new_strategy =>
      { s1 with
        store := save_profile_data s1.store
          (PyDict.ofList [("profile_id", .vstr pid),
                          ("content_strategy", .vstr new_strategy)]) }
    | .error _ => s1
  else
    s

/-- The "Undo Last Change" handler of the strategy section: re-save the
retained snapshot; the snapshot slot itself is not cleared. -/
def undo_strategy_btn (s : StrategySection) (pid : String) : StrategySection :=
  { s with
    store := save_profile_data s.store
      (PyDict.ofList [("profile_id", .vstr pid),
                      ("content_strategy", .vstr s.previous_strategy)]) }

/-! ## Pillar feedback and undo (`Home.py`, Content Pillars section) -/

/-- The state of the pillar-feedback widgets: the store plus
`st.session_state.previous_pillars`. -/
structure PillarsSection where
  store : List PyDict
  previous_pillars : PyVal

/-- `profile.get("content_pillars", [])` for the currently selected profile
(the handler only runs with a selected profile). -/
def current_pillars_of (store : List PyDict) (pid : String) : PyVal :=
  match load_profile_data store pid with
  | some profile => profile.getD "content_pillars" (.vlist .nil)
  | none => .vlist .nil

/-- The "Update Based on Feedback" handler of the pillars section: with empty
feedback it only warns.  Otherwise it snapshots the stored pillars into
`st.session_state.previous_pillars`, calls the model and on success saves
`content_pillars := response.strip().split('\n')[:3]`. -/
def update_pillars_feedback_btn (s : PillarsSection) (pid feedback : String)
    (modelReply : Except Unit String) : PillarsSection :=
  if feedback ≠ "" then
    let s1 : PillarsSection := { s with previous_pillars := current_pillars_of s.store pid }
    match modelReply with
    | .ok content =>
      let new_pillars := ((pyStrip content).splitOn "\n").take 3
      { s1 with
        store := save_profile_data s1.store
          (PyDict.ofList [("profile_id", .vstr pid),
                          ("content_pillars", .vlist (PyList.ofList (new_pillars.map .vstr)))]) }
    | .error _ => s1
  else
    s

/-- The "Undo Last Change" handler of the pillars section. -/
def undo_pillars_btn (s : PillarsSection) (pid : String) : PillarsSection :=
  { s with
    store := save_profile_data s.store
      (PyDict.ofList [("profile_id", .vstr pid),
                      ("content_pillars", s.previous_pillars)]) }

/-! ## Customer-data page (`customer_data.py`) -/

/-- Python `value.replace(pat, "")` on character lists: scan left to right,
removing every (leftmost, non-overlapping) occurrence of the nonempty
pattern. -/
def pyReplaceChars (s pat : List Char) : List Char :=
  match s with
  | [] => []
  | c :: rest =>
    if h : pat ≠ [] ∧ pat.isPrefixOf (c :: rest) then
      pyReplaceChars ((c :: rest).drop pat.length) pat
    else
      c :: pyReplaceChars rest pat
termination_by s.length
decreasing_by
  · have hlen : 0 < pat.length := List.length_pos.mpr h.1
    simp only [List.length_drop, List.length_cons]
    omega
  · simp only [List.length_cons]
    omega

/-- Python `value.replace(pat, "")` on strings. -/
def pyReplace (s pat : String) : String := ⟨pyReplaceChars s.data pat.data⟩

/-- `customer_data.py` `strip_prefix`, the loop over the known markers: on the
first marker the value starts with, return `value.replace(marker, "").strip()`
(note: `replace` removes every occurrence of the marker, not only the leading
one); when no marker matches, return `value.strip()`. -/
def strip_markers_loop (value : String) : List String → String
  | [] => pyStrip value
  | m :: rest =>
    if m.data.isPrefixOf value.data then pyStrip (pyReplace value m)
    else strip_markers_loop value rest

/-- `customer_data.py` `strip_prefix value prefixes`: `if not value: return ""`
(falsy value, i.e. the empty string — `None` does not arise on the round trip
modelled here), else run the marker loop. -/
def strip_markers (value : String) (markers : List String) : String :=
  if value = "" then "" else strip_markers_loop value markers

/-- The save handler of the customer-data page prepends the field marker:
the `ideal_customer` field is sent as `f"ICP: {ideal_customer}"`. -/
def save_ideal_customer_field (v : String) : String := "ICP: " ++ v

/-- `load_customer_data` cleans the stored `ideal_customer` field with
`strip_prefix(data.get("ideal_customer"), ["ICP: "])`. -/
def load_ideal_customer_field (s : String) : String := strip_markers s ["ICP: "]

/-! ## REST backend (`main.py`) -/

/-- `main.py` `ProfileData(BaseModel)`: the four declared fields.  No
`profile_id` field is declared on it or on any of its subclasses below. -/
structure ProfileData where
  first_name : String
  last_name : String
  email : Option String
  linkedin_url : Option String

structure IdealCustomerRequest extends ProfileData where
  customer : String
  problem : String
  philosophy : String

structure StrategiesUpdateRequest extends ProfileData where
  primary_strategy : String
  secondary_strategy : String

structure CustomerDataRequest extends ProfileData where
  ideal_customer : String
  icp_pain_points : String
  unique_value : String
  proof_points : String
  energizing_topics : String
  decision_maker : String

/-- A pydantic model value as its attribute map (`None` becomes `vnull`). -/
def ProfileData.attrs (r : ProfileData) : List (String × PyVal) :=
  [("first_name", .vstr r.first_name), ("last_name", .vstr r.last_name),
   ("email", match r.email with | some e => .vstr e | none => .vnull),
   ("linkedin_url", match r.linkedin_url with | some u => .vstr u | none => .vnull)]

def IdealCustomerRequest.attrs (r : IdealCustomerRequest) : List (String × PyVal) :=
  r.toProfileData.attrs ++
    [("customer", .vstr r.customer), ("problem", .vstr r.problem),
     ("philosophy", .vstr r.philosophy)]

def StrategiesUpdateRequest.attrs (r : StrategiesUpdateRequest) : List (String × PyVal) :=
  r.toProfileData.attrs ++
    [("primary_strategy", .vstr r.primary_strategy),
     ("secondary_strategy", .vstr r.secondary_strategy)]

def CustomerDataRequest.attrs (r : CustomerDataRequest) : List (String × PyVal) :=
  r.toProfileData.attrs ++
    [("ideal_customer", .vstr r.ideal_customer), ("icp_pain_points", .vstr r.icp_pain_points),
     ("unique_value", .vstr r.unique_value), ("proof_points", .vstr r.proof_points),
     ("energizing_topics", .vstr r.energizing_topics), ("decision_maker", .vstr r.decision_maker)]

/-- Attribute access on a pydantic model: accessing a name that is not a
declared field raises `AttributeError` (`.error`). -/
def pydanticGetattr (attrs : List (String × PyVal)) (name : String) : Except Unit PyVal :=
  match attrs.find? (fun kv => kv.1 == name) with
  | some kv => .ok kv.2
  | none => .error ()

/-- The outcome FastAPI sends back: a 200 body, or an error status (an
unhandled exception inside a handler becomes an HTTP 500 response). -/
inductive HttpOutcome where
  | ok (body : PyVal)
  | httpError (status : Nat)

/-- Replace the value of key `k`, or append the entry when `k` is absent. -/
def PyDict.setEntry : PyDict → String → PyVal → PyDict
  | .nil, k, v => .cons k v .nil
  | .cons k1 v1 tl, k, v =>
    if k1 == k then .cons k1 v tl else .cons k1 v1 (PyDict.setEntry tl k v)

def PyDict.mergeEntries (row : PyDict) : PyDict → PyDict
  | .nil => row
  | .cons k v tl => PyDict.mergeEntries (row.setEntry k v) tl

/-- Modelled from the library contract of the hosted store: a
`table(...).update(data).eq(key, val).execute()` call merges the supplied
columns into every row matching the filter. -/
def supabase_update (table : List PyDict) (key : String) (val : PyVal) (upd : PyDict) :
    List PyDict :=
  table.map (fun row => if row.lookup key == some val then row.mergeEntries upd else row)

/-- `table(...).select(...).eq(key, val).limit(1).execute()`: the first
matching row, if any. -/
def supabase_select_first (table : List PyDict) (key : String) (val : PyVal) : Option PyDict :=
  table.find? (fun row => row.lookup key == some val)

/-- `main.py` `save_ideal_customer`: its first statement,
`profile_id = request.profile_id`, runs before the `try` block;
`IdealCustomerRequest` declares no `profile_id` field, so pydantic raises
`AttributeError` and FastAPI answers 500 before the store is touched. -/
def save_ideal_customer (table : List PyDict) (req : IdealCustomerRequest) (now : String) :
    HttpOutcome × List PyDict :=
  match pydanticGetattr req.attrs "profile_id" with
  | .error _ => (.httpError 500, table)
  | .ok pid =>
    let upsert_data := PyDict.ofList
      [("ideal_customer", .vstr req.customer), ("ideal_problem", .vstr req.problem),
       ("brand_philosophy", .vstr req.philosophy), ("updated_at", .vstr now)]
    (.ok (.vdict (PyDict.ofList [("status", .vstr "success")])),
     supabase_update table "profile_id" pid upsert_data)

/-- `main.py` `save_strategies`: same shape as `save_ideal_customer`. -/
def save_strategies (table : List PyDict) (req : StrategiesUpdateRequest) (now : String) :
    HttpOutcome × List PyDict :=
  match pydanticGetattr req.attrs "profile_id" with
  | .error _ => (.httpError 500, table)
  | .ok pid =>
    let update_data := PyDict.ofList
      [("primary_strategy", .vstr req.primary_strategy),
       ("secondary_strategy", .vstr req.secondary_strategy),
       ("updated_at", .vstr now)]
    (.ok (.vdict (PyDict.ofList [("status", .vstr "success")])),
     supabase_update table "profile_id" pid update_data)

/-- `main.py` `get_initial_data_endpoint` (`POST /get-initial-data`): reads
`request.profile_id` from a plain `ProfileData` request before the `try`
block. -/
def get_initial_data_endpoint (table : List PyDict) (req : ProfileData) :
    HttpOutcome × List PyDict :=
  match pydanticGetattr req.attrs "profile_id" with
  | .error _ => (.httpError 500, table)
  | .ok pid =>
    match supabase_select_first table "profile_id" pid with
    | some data =>
      (.ok (.vdict (PyDict.ofList
        [("profile_id", data.getD "profile_id" (.vstr "")),
         ("first_name", data.getD "first_name" (.vstr "")),
         ("last_name", data.getD "last_name" (.vstr "")),
         ("email", data.getD "email" (.vstr "")),
         ("linkedin_url", data.getD "linkedin_url" (.vstr "")),
         ("ideal_customer", data.getD "ideal_customer" (.vstr "")),
         ("ideal_problem", data.getD "ideal_problem" (.vstr "")),
         ("icp_pain_points", data.getD "icp_pain_points" (.vstr "")),
         ("unique_value", data.getD "unique_value" (.vstr "")),
         ("proof_points", data.getD "proof_points" (.vstr "")),
         ("energizing_topics", data.getD "energizing_topics" (.vstr "")),
         ("decision_maker", data.getD "decision_maker" (.vstr "")),
         ("brand_philosophy", data.getD "brand_philosophy" (.vstr "")),
         ("primary_strategy", data.getD "primary_strategy" (.vstr "")),
         ("secondary_strategy", data.getD "secondary_strategy" (.vstr "")),
         ("brand_voice", data.getD "brand_voice" (.vstr "")),
         ("voice_examples", data.getD "voice_examples" (.vlist .nil))])), table)
    | none =>
      (.ok (.vdict (PyDict.ofList
        [("profile_id", pid), ("first_name", .vstr ""), ("last_name", .vstr ""),
         ("email", .vstr ""), ("linkedin_url", .vstr ""), ("ideal_customer", .vstr ""),
         ("ideal_problem", .vstr ""), ("icp_pain_points", .vstr ""),
         ("unique_value", .vstr ""), ("proof_points", .vstr ""),
         ("energizing_topics", .vstr ""), ("decision_maker", .vstr ""),
         ("brand_philosophy", .vstr ""), ("primary_strategy", .vstr ""),
         ("secondary_strategy", .vstr ""), ("brand_voice", .vstr ""),
         ("voice_examples", .vlist .nil)])), table)

/-- `main.py` `get_customer_data` (`POST /get-customer-data`): reads
`request.profile_id` from a plain `ProfileData` request before the `try`
block. -/
def get_customer_data (table : List PyDict) (req : ProfileData) :
    HttpOutcome × List PyDict :=
  match pydanticGetattr req.attrs "profile_id" with
  | .error _ => (.httpError 500, table)
  | .ok pid =>
    match supabase_select_first table "profile_id" pid with
    | some data =>
      (.ok (.vdict (PyDict.ofList
        [("ideal_customer", data.getD "ideal_customer" (.vstr "")),
         ("icp_pain_points", data.getD "icp_pain_points" (.vstr "")),
         ("unique_value", data.getD "unique_value" (.vstr "")),
         ("proof_points", data.getD "proof_points" (.vstr "")),
         ("energizing_topics", data.getD "energizing_topics" (.vstr "")),
         ("decision_maker", data.getD "decision_maker" (.vstr ""))])), table)
    | none =>
      (.ok (.vdict (PyDict.ofList
        [("ideal_customer", .vstr ""), ("icp_pain_points", .vstr ""),
         ("unique_value", .vstr ""), ("proof_points", .vstr ""),
         ("energizing_topics", .vstr ""), ("decision_maker", .vstr "")])), table)

/-- `main.py` `save_customer_data` (`POST /save-customer-data`): reads
`request.profile_id` from a `CustomerDataRequest` before the `try` block. -/
def save_customer_data (table : List PyDict) (req : CustomerDataRequest) (now : String) :
    HttpOutcome × List PyDict :=
  match pydanticGetattr req.attrs "profile_id" with
  | .error _ => (.httpError 500, table)
  | .ok pid =>
    let update_data := PyDict.ofList
      [("ideal_customer", .vstr req.ideal_customer),
       ("icp_pain_points", .vstr req.icp_pain_points),
       ("unique_value", .vstr req.unique_value),
       ("proof_points", .vstr req.proof_points),
       ("energizing_topics", .vstr req.energizing_topics),
       ("decision_maker", .vstr req.decision_maker),
       ("updated_at", .vstr now)]
    (.ok (.vdict (PyDict.ofList [("status", .vstr "success")])),
     supabase_update table "profile_id" pid update_data)

/-- `main.py` `create_profile` (`POST /profiles`): also takes a `ProfileData`
request, but never reads `request.profile_id`; it inserts
`profile.dict(exclude_none=True)` plus an `updated_at` stamp and returns the
inserted row. -/
def create_profile (table : List PyDict) (profile : ProfileData) (now : String) :
    HttpOutcome × List PyDict :=
  let data := PyDict.ofList
    ([("first_name", .vstr profile.first_name), ("last_name", .vstr profile.last_name)]
     ++ (match profile.email with | some e => [(("email" : String), PyVal.vstr e)] | none => [])
     ++ (match profile.linkedin_url with
         | some u => [(("linkedin_url" : String), PyVal.vstr u)]
         | none => [])
     ++ [("updated_at", .vstr now)])
  (.ok (.vdict data), table ++ [data])

/-! ## Lemmas about `replace` and `strip` -/

theorem pyStripChars_length_le (l : List Char) : (pyStripChars l).length ≤ l.length := by
  have h1 : (List.dropWhile isPySpace l).length ≤ l.length :=
    (List.dropWhile_suffix isPySpace).length_le
  have h2 : (List.dropWhile isPySpace (List.dropWhile isPySpace l).reverse).length ≤
      (List.dropWhile isPySpace l).reverse.length :=
    (List.dropWhile_suffix isPySpace).length_le
  simp only [pyStripChars, List.length_reverse] at *
  omega

theorem pyReplaceChars_length_le (s pat : List Char) :
    (pyReplaceChars s pat).length ≤ s.length := by
  induction s, pat using pyReplaceChars.induct with
  | case1 pat => simp [pyReplaceChars]
  | case2 pat c rest h ih =>
    rw [pyReplaceChars, dif_pos h]
    have hlen : 0 < pat.length := List.length_pos.mpr h.1
    simp only [List.length_drop, List.length_cons] at ih ⊢
    omega
  | case3 pat c rest h ih =>
    rw [pyReplaceChars, dif_neg h]
    simp only [List.length_cons]
    omega

theorem pyReplaceChars_cons_pos (c : Char) (rest pat : List Char)
    (h1 : pat ≠ []) (h2 : pat.isPrefixOf (c :: rest)) :
    pyReplaceChars (c :: rest) pat = pyReplaceChars ((c :: rest).drop pat.length) pat := by
  rw [pyReplaceChars, dif_pos ⟨h1, h2⟩]

theorem pyReplaceChars_cons_neg (c : Char) (rest pat : List Char)
    (h2 : ¬ pat.isPrefixOf (c :: rest)) :
    pyReplaceChars (c :: rest) pat = c :: pyReplaceChars rest pat := by
  rw [pyReplaceChars, dif_neg]
  intro hc
  exact h2 hc.2

theorem pyReplaceChars_head_self (pat v : List Char) (h : pat ≠ []) :
    pyReplaceChars (pat ++ v) pat = pyReplaceChars v pat := by
  obtain ⟨c, t, rfl⟩ : ∃ c t, pat = c :: t := by
    cases pat with
    | nil => exact absurd rfl h
    | cons c t => exact ⟨c, t, rfl⟩
  have hpre : (c :: t).isPrefixOf ((c :: t) ++ v) = true :=
    List.isPrefixOf_iff_prefix.mpr (List.prefix_append _ _)
  rw [show ((c :: t) ++ v) = c :: (t ++ v) by simp] at hpre ⊢
  rw [pyReplaceChars, dif_pos ⟨h, hpre⟩]
  have hdrop : (c :: (t ++ v)).drop (c :: t).length = v := by
    have := List.drop_left (c :: t) v
    simpa using this
  rw [hdrop]

theorem pyReplaceChars_infix_length (pat : List Char) (hne : pat ≠ []) :
    ∀ v : List Char, (∃ u w, v = u ++ (pat ++ w)) →
      (pyReplaceChars v pat).length + pat.length ≤ v.length := by
  intro v
  induction v with
  | nil =>
    rintro ⟨u, w, huw⟩
    exfalso
    rcases List.append_eq_nil.mp huw.symm with ⟨-, h2⟩
    rcases List.append_eq_nil.mp h2 with ⟨h3, -⟩
    exact hne h3
  | cons c rest ih =>
    rintro ⟨u, w, huw⟩
    by_cases hpre : pat.isPrefixOf (c :: rest)
    · rw [pyReplaceChars_cons_pos c rest pat hne hpre]
      have hlen : pat.length ≤ (c :: rest).length :=
        (List.isPrefixOf_iff_prefix.mp hpre).length_le
      have hb := pyReplaceChars_length_le ((c :: rest).drop pat.length) pat
      simp only [List.length_drop, List.length_cons] at hb hlen ⊢
      omega
    · rw [pyReplaceChars_cons_neg c rest pat hpre]
      cases u with
      | nil =>
        exfalso
        apply hpre
        simp only [List.nil_append] at huw
        exact List.isPrefixOf_iff_prefix.mpr ⟨w, huw.symm⟩
      | cons cu u2 =>
        simp only [List.cons_append, List.cons.injEq] at huw
        have hrec := ih ⟨u2, w, huw.2⟩
        simp only [List.length_cons]
        omega

/-! ## Claim theorems -/

theorem pad_take_three (l : List String) :
    ((l ++ List.replicate (3 - l.length) "").take 3).length = 3 ∧
    (l ++ List.replicate (3 - l.length) "").take 3
      = l.take 3 ++ List.replicate (3 - l.length) "" := by
  rcases l with _ | ⟨a, _ | ⟨b, _ | ⟨c, rest⟩⟩⟩ <;>
    simp [List.take, List.replicate, Nat.sub_eq_zero_of_le]

/-- Claim C4: for every model response text, pillar generation persists a
content-pillar list of exactly 3 entries: one quoted substring is extracted
per line that contains a quote (`extract_theme`), the result is padded with
empty strings when fewer than 3 were extracted and truncated to the first 3
when more were, and `generate_pillars` stores exactly this list. -/
theorem pillar_generation_exactly_three (raw : String) :
    (parse_pillars raw).length = 3 ∧
    parse_pillars raw
      = (((pyStrip raw).splitOn "\n").filterMap extract_theme).take 3
          ++ List.replicate
              (3 - (((pyStrip raw).splitOn "\n").filterMap extract_theme).length) "" ∧
    ∀ store pid profile, load_profile_data store pid = some profile →
      (load_profile_data (generate_pillars store pid (.ok raw)).1 pid).map
          (fun p => p.lookup "content_pillars")
        = some (some (.vlist (PyList.ofList ((parse_pillars raw).map .vstr)))) := by
  have h := pad_take_three (((pyStrip raw).splitOn "\n").filterMap extract_theme)
  refine ⟨by simpa [parse_pillars] using h.1, by simpa [parse_pillars] using h.2, ?_⟩
  intro store pid profile hprof
  have hsave :
      (generate_pillars store pid (.ok raw)).1
        = save_profile_data store
            (PyDict.ofList [("profile_id", .vstr pid),
              ("content_pillars", .vlist (PyList.ofList ((parse_pillars raw).map .vstr)))]) := by
    simp [generate_pillars, hprof]
  have hload := load_save_self store
    (PyDict.ofList [("profile_id", .vstr pid),
      ("content_pillars", .vlist (PyList.ofList ((parse_pillars raw).map .vstr)))]) pid rfl
  rw [hsave, hload]
  rfl

theorem pillar_generation_exactly_three_witness :
    load_profile_data [PyDict.ofList [("profile_id", .vstr "p")]] "p"
        = some (PyDict.ofList [("profile_id", .vstr "p")]) ∧
    (load_profile_data
        (generate_pillars [PyDict.ofList [("profile_id", .vstr "p")]] "p"
          (.ok "1. \x22Theme one.\x22\n2. \x22Theme two.\x22")).1 "p").map
        (fun p => p.lookup "content_pillars")
      = some (some (.vlist (PyList.ofList
          ((parse_pillars "1. \x22Theme one.\x22\n2. \x22Theme two.\x22").map .vstr)))) :=
  ⟨rfl,
   (pillar_generation_exactly_three "1. \x22Theme one.\x22\n2. \x22Theme two.\x22").2.2
     [PyDict.ofList [("profile_id", .vstr "p")]] "p"
     (PyDict.ofList [("profile_id", .vstr "p")]) rfl⟩

/-- Claim C5: submitting the new-profile form with a blank (empty) first or
last name always fails with the inline error and leaves the profile store
unchanged. -/
theorem blank_name_creates_nothing (store : List PyDict)
    (first_name last_name email linkedin_url ts : String)
    (h : first_name = "" ∨ last_name = "") :
    profile_form_submit store first_name last_name email linkedin_url ts = (store, false) := by
  rcases h with h | h <;> simp [profile_form_submit, h]

theorem blank_name_creates_nothing_witness :
    ("" = "" ∨ "Smith" = ("" : String)) ∧
    profile_form_submit [] "" "Smith" "a@b.c" "url" "20240101" = ([], false) :=
  ⟨Or.inl rfl, blank_name_creates_nothing [] "" "Smith" "a@b.c" "url" "20240101" (Or.inl rfl)⟩

/-- Claim C6: creating a profile with nonempty first and last names always
adds a record retrievable via `load_profile_data` of the generated
identifier, and every field not supplied at creation reads back as empty:
the optional email and URL are stored as the empty strings the blank form
fields hold, and the marketing fields and generated artifacts are absent, so
the defaulted reads used by the page all yield empty values. -/
theorem create_profile_retrievable (store : List PyDict) (first_name last_name ts : String)
    (hf : first_name ≠ "") (hl : last_name ≠ "") :
    (profile_form_submit store first_name last_name "" "" ts).2 = true ∧
    load_profile_data (profile_form_submit store first_name last_name "" "" ts).1
        (pyLower first_name ++ "_" ++ pyLower last_name ++ "_" ++ ts)
      = some (new_profile first_name last_name "" "" ts) ∧
    (new_profile first_name last_name "" "" ts).getD "email" (.vstr "") = .vstr "" ∧
    (new_profile first_name last_name "" "" ts).getD "linkedin_url" (.vstr "") = .vstr "" ∧
    (new_profile first_name last_name "" "" ts).getD "icp" (.vstr "") = .vstr "" ∧
    (new_profile first_name last_name "" "" ts).getD "icp_pain_points" (.vstr "") = .vstr "" ∧
    (new_profile first_name last_name "" "" ts).getD "unique_value" (.vstr "") = .vstr "" ∧
    (new_profile first_name last_name "" "" ts).getD "proof_points" (.vstr "") = .vstr "" ∧
    (new_profile first_name last_name "" "" ts).getD "energizing_topics" (.vstr "") = .vstr "" ∧
    (new_profile first_name last_name "" "" ts).getD "decision_makers" (.vstr "") = .vstr "" ∧
    (new_profile first_name last_name "" "" ts).getD "content_strategy" (.vstr "") = .vstr "" ∧
    (new_profile first_name last_name "" "" ts).getD "content_pillars" (.vlist .nil)
      = .vlist .nil ∧
    (new_profile first_name last_name "" "" ts).getD "linkedin_prompts" (.vlist .nil)
      = .vlist .nil := by
  have hsubmit :
      profile_form_submit store first_name last_name "" "" ts
        = (save_profile_data store (new_profile first_name last_name "" "" ts), true) := by
    simp [profile_form_submit, hf, hl]
  refine ⟨by rw [hsubmit], ?_, rfl, rfl, rfl, rfl, rfl, rfl, rfl, rfl, rfl, rfl, rfl⟩
  rw [hsubmit]
  exact load_save_self store (new_profile first_name last_name "" "" ts)
    (pyLower first_name ++ "_" ++ pyLower last_name ++ "_" ++ ts) rfl

theorem create_profile_retrievable_witness :
    (("Ada" : String) ≠ "" ∧ ("Lovelace" : String) ≠ "") ∧
    load_profile_data (profile_form_submit [] "Ada" "Lovelace" "" "" "20240101120000").1
        (pyLower "Ada" ++ "_" ++ pyLower "Lovelace" ++ "_" ++ "20240101120000")
      = some (new_profile "Ada" "Lovelace" "" "" "20240101120000") :=
  ⟨⟨by decide, by decide⟩,
   (create_profile_retrievable [] "Ada" "Lovelace" "20240101120000"
      (by decide) (by decide)).2.1⟩

/-- Claim C8: submitting strategy or pillar feedback with an empty feedback
string only produces the warning: the snapshot slot is not written, no save
happens, and the whole section state is unchanged, whatever the model would
have replied. -/
theorem empty_feedback_is_noop (s : StrategySection) (ps : PillarsSection)
    (pid strategy_text : String) (r1 r2 : Except Unit String) :
    update_strategy_feedback_btn s pid strategy_text "" r1 = s ∧
    update_pillars_feedback_btn ps pid "" r2 = ps := by
  constructor <;> simp [update_strategy_feedback_btn, update_pillars_feedback_btn]

/-- The store used to exercise the batched prompt generation. -/
def c1_store : List PyDict := [PyDict.ofList [("profile_id", .vstr "p")]]

def c1_item0 : PyVal := .vdict (PyDict.ofList
  [("prompt", .vstr "q0"), ("hook", .vstr "h0"),
   ("type_of_post", .vstr "First-Person Anecdote")])

def c1_item1 : PyVal := .vdict (PyDict.ofList
  [("prompt", .vstr "q1"), ("hook", .vstr "h1"),
   ("type_of_post", .vstr "Listicle with a Hook")])

def c1_item2 : PyVal := .vdict (PyDict.ofList
  [("prompt", .vstr "q2"), ("hook", .vstr "h2"),
   ("type_of_post", .vstr "Engagement-Driven Question")])

/-- A run of 6 batches: batch 0 parses to a 2-item list, batch 3 to a 1-item
list, batch 4 parses but is not a list, the others fail to parse. -/
def c1_responses : Nat → Except Unit PyVal := fun i =>
  if i = 0 then .ok (.vlist (PyList.ofList [c1_item0, c1_item1]))
  else if i = 3 then .ok (.vlist (PyList.ofList [c1_item2]))
  else if i = 4 then .ok (.vstr "not a list")
  else .error ()

/-- Claim C1: requesting 30 prompts issues `num_batches 30 = 6` batches, a
batch whose response fails to parse as a JSON list is skipped (its items are
lost, not retried) and with zero items across all batches the operation
returns `False`.  But the claimed success report with at least one item does
not happen: in the run `c1_responses`, 3 items survive and are saved into the
store, yet `generate_prompts` still returns `False`, because
`save_profile_data` returns `None` and the caller tests that `None`. -/
theorem batched_generation_reports_failure :
    num_batches 30 = 6 ∧
    (collect_batches 30 c1_responses).length = 3 ∧
    generate_prompts c1_store "p" 30 c1_responses
      = ([PyDict.ofList
            [("profile_id", .vstr "p"),
             ("linkedin_prompts", .vlist (PyList.ofList [c1_item0, c1_item1, c1_item2]))]],
         false) ∧
    generate_prompts c1_store "p" 30 (fun _ => .error ()) = (c1_store, false) := by
  refine ⟨rfl, rfl, ?_, rfl⟩
  rfl

/-- Claim C2: the session-state store performs whole-record replacement, not
a merge.  Saving the partial update `{"profile_id": "p",
"content_strategy": "X"}` over a record that carried `icp` leaves the store
holding only the two supplied fields: `icp` is gone and reads back as the
empty default, where the claim (and spec) promise it stays `"founders"`. -/
theorem partial_update_clobbers_record :
    save_profile_data
        [PyDict.ofList
          [("profile_id", .vstr "p"), ("first_name", .vstr "Ada"),
           ("last_name", .vstr "L"), ("icp", .vstr "founders"),
           ("content_strategy", .vstr "old")]]
        (PyDict.ofList [("profile_id", .vstr "p"), ("content_strategy", .vstr "X")])
      = [PyDict.ofList [("profile_id", .vstr "p"), ("content_strategy", .vstr "X")]] ∧
    load_profile_data
        (save_profile_data
          [PyDict.ofList
            [("profile_id", .vstr "p"), ("first_name", .vstr "Ada"),
             ("last_name", .vstr "L"), ("icp", .vstr "founders"),
             ("content_strategy", .vstr "old")]]
          (PyDict.ofList [("profile_id", .vstr "p"), ("content_strategy", .vstr "X")])) "p"
      = some (PyDict.ofList [("profile_id", .vstr "p"), ("content_strategy", .vstr "X")]) ∧
    (PyDict.ofList [("profile_id", .vstr "p"), ("content_strategy", .vstr "X")]).lookup "icp"
      = none ∧
    (PyDict.ofList
      [("profile_id", .vstr "p"), ("content_strategy", .vstr "X")]).getD "icp" (.vstr "")
      = .vstr "" := ⟨rfl, rfl, rfl, rfl⟩

/-- Claim C3: after a feedback-based revision of the strategy (resp. the
pillars), undo persists exactly the value captured into the single snapshot
slot immediately before that revision, and a second consecutive undo
re-applies the same captured value, leaving the whole section state
unchanged (no earlier version is restored). -/
theorem undo_restores_snapshot (s : StrategySection) (ps : PillarsSection)
    (pid strategy_text feedback pillar_feedback reply pillar_reply : String)
    (hfb : feedback ≠ "") (hpfb : pillar_feedback ≠ "") :
    ((load_profile_data
        (undo_strategy_btn
          (update_strategy_feedback_btn s pid strategy_text feedback (.ok reply)) pid).store
        pid).map (fun p => p.lookup "content_strategy")
      = some (some (.vstr strategy_text)) ∧
     undo_strategy_btn
        (undo_strategy_btn
          (update_strategy_feedback_btn s pid strategy_text feedback (.ok reply)) pid) pid
      = undo_strategy_btn
          (update_strategy_feedback_btn s pid strategy_text feedback (.ok reply)) pid) ∧
    ((load_profile_data
        (undo_pillars_btn
          (update_pillars_feedback_btn ps pid pillar_feedback (.ok pillar_reply)) pid).store
        pid).map (fun p => p.lookup "content_pillars")
      = some (some (current_pillars_of ps.store pid)) ∧
     undo_pillars_btn
        (undo_pillars_btn
          (update_pillars_feedback_btn ps pid pillar_feedback (.ok pillar_reply)) pid) pid
      = undo_pillars_btn
          (update_pillars_feedback_btn ps pid pillar_feedback (.ok pillar_reply)) pid) := by
  have hs1 :
      update_strategy_feedback_btn s pid strategy_text feedback (.ok reply)
        = { store := save_profile_data s.store
              (PyDict.ofList [("profile_id", .vstr pid), ("content_strategy", .vstr reply)]),
            previous_strategy := strategy_text } := by
    simp [update_strategy_feedback_btn, hfb]
  have hp1 :
      update_pillars_feedback_btn ps pid pillar_feedback (.ok pillar_reply)
        = { store := save_profile_data ps.store
              (PyDict.ofList
                [("profile_id", .vstr pid),
                 ("content_pillars",
                  .vlist (PyList.ofList
                    ((((pyStrip pillar_reply).splitOn "\n").take 3).map .vstr)))]),
            previous_pillars := current_pillars_of ps.store pid } := by
    simp [update_pillars_feedback_btn, hpfb]
  refine ⟨⟨?_, ?_⟩, ?_, ?_⟩
  · rw [hs1]
    show (load_profile_data (save_profile_data _
        (PyDict.ofList [("profile_id", .vstr pid),
          ("content_strategy", .vstr strategy_text)])) pid).map _ = _
    rw [load_save_self _
      (PyDict.ofList [("profile_id", .vstr pid),
        ("content_strategy", .vstr strategy_text)]) pid rfl]
    rfl
  · rw [hs1]
    show undo_strategy_btn
        { store := save_profile_data (save_profile_data _ _)
            (PyDict.ofList [("profile_id", .vstr pid),
              ("content_strategy", .vstr strategy_text)]),
          previous_strategy := strategy_text } pid = _
    simp only [undo_strategy_btn]
    rw [save_save_self _
      (PyDict.ofList [("profile_id", .vstr pid),
        ("content_strategy", .vstr strategy_text)]) pid rfl]
  · rw [hp1]
    show (load_profile_data (save_profile_data _
        (PyDict.ofList [("profile_id", .vstr pid),
          ("content_pillars", current_pillars_of ps.store pid)])) pid).map _ = _
    rw [load_save_self _
      (PyDict.ofList [("profile_id", .vstr pid),
        ("content_pillars", current_pillars_of ps.store pid)]) pid rfl]
    rfl
  · rw [hp1]
    simp only [undo_pillars_btn]
    rw [save_save_self _
      (PyDict.ofList [("profile_id", .vstr pid),
        ("content_pillars", current_pillars_of ps.store pid)]) pid rfl]

theorem undo_restores_snapshot_witness :
    (("please improve" : String) ≠ "" ∧ ("shorter please" : String) ≠ "") ∧
    (load_profile_data
        (undo_strategy_btn
          (update_strategy_feedback_btn
            ⟨[PyDict.ofList [("profile_id", .vstr "p"), ("content_strategy", .vstr "orig")]],
             "snap"⟩
            "p" "orig" "please improve" (.ok "revised")) "p").store
        "p").map (fun p => p.lookup "content_strategy")
      = some (some (.vstr "orig")) :=
  ⟨⟨by decide, by decide⟩,
   (undo_restores_snapshot
      ⟨[PyDict.ofList [("profile_id", .vstr "p"), ("content_strategy", .vstr "orig")]], "snap"⟩
      ⟨[PyDict.ofList [("profile_id", .vstr "p")]], .vlist .nil⟩
      "p" "orig" "please improve" "shorter please" "revised" "a\nb\nc"
      (by decide) (by decide)).1.1⟩

/-- Claim C7: a prompt record whose `type_of_post` label is not one of the
six fixed labels lands in no bucket of the category-grouped display; but as
long as it carries the `prompt`, `hook` and `type_of_post` fields, its
formatted version survives into the raw list that `generate_prompts`
persists. -/
theorem unknown_label_dropped_from_display (items : List PyVal) (d : PyDict)
    (hmem : PyVal.vdict d ∈ items)
    (hp : d.hasKey "prompt" = true) (hh : d.hasKey "hook" = true)
    (ht : d.hasKey "type_of_post" = true)
    (hlabel : ∀ c ∈ six_categories, (type_of_post_of (.vdict d) == PyVal.vstr c) = false) :
    (∀ c ∈ six_categories, PyVal.vdict d ∉ category_prompts_bucket items c) ∧
    formatted_record d ∈ format_prompts items := by
  constructor
  · intro c hc hmem2
    have hpred := (List.mem_filter.mp hmem2).2
    rw [hlabel c hc] at hpred
    exact Bool.false_ne_true hpred
  · exact List.mem_filterMap.mpr ⟨.vdict d, hmem, by simp [hp, hh, ht]⟩

def c7_dict : PyDict := PyDict.ofList
  [("prompt", .vstr "Tell us about a pivot."), ("hook", .vstr "Last year..."),
   ("type_of_post", .vstr "Weird Label")]

theorem unknown_label_dropped_from_display_witness :
    (PyVal.vdict c7_dict ∈ [PyVal.vdict c7_dict] ∧
     c7_dict.hasKey "prompt" = true ∧ c7_dict.hasKey "hook" = true ∧
     c7_dict.hasKey "type_of_post" = true ∧
     (∀ c ∈ six_categories, (type_of_post_of (.vdict c7_dict) == PyVal.vstr c) = false)) ∧
    ((∀ c ∈ six_categories,
        PyVal.vdict c7_dict ∉ category_prompts_bucket [PyVal.vdict c7_dict] c) ∧
     formatted_record c7_dict ∈ format_prompts [PyVal.vdict c7_dict]) :=
  ⟨⟨List.mem_singleton.mpr rfl, rfl, rfl, rfl, by decide⟩,
   unknown_label_dropped_from_display [PyVal.vdict c7_dict] c7_dict
     (List.mem_singleton.mpr rfl) rfl rfl rfl (by decide)⟩

/-- Claim C9 (amended): each of the five endpoints the claim names reads
`request.profile_id` from a ProfileData-based model that declares no
`profile_id` field, so pydantic raises `AttributeError` before the handler
reaches the store and FastAPI answers HTTP 500 to every such request; the
table is never touched. -/
theorem profileid_endpoints_always_500 (table : List PyDict)
    (r1 : IdealCustomerRequest) (r2 : StrategiesUpdateRequest) (r3 r4 : ProfileData)
    (r5 : CustomerDataRequest) (now : String) :
    save_ideal_customer table r1 now = (.httpError 500, table) ∧
    save_strategies table r2 now = (.httpError 500, table) ∧
    get_initial_data_endpoint table r3 = (.httpError 500, table) ∧
    get_customer_data table r4 = (.httpError 500, table) ∧
    save_customer_data table r5 now = (.httpError 500, table) :=
  ⟨rfl, rfl, rfl, rfl, rfl⟩

/-- Claim C9, counterexample to the claim as stated: `create_profile`
(`POST /profiles`) also takes a request whose model is `ProfileData`, yet it
never reads `request.profile_id`; it reaches the store and succeeds, so not
every endpoint with such a request model fails. -/
theorem create_profile_succeeds :
    create_profile [] ⟨"Ada", "Lovelace", none, none⟩ "2025-01-01T00:00:00"
      = (.ok (.vdict (PyDict.ofList
          [("first_name", .vstr "Ada"), ("last_name", .vstr "Lovelace"),
           ("updated_at", .vstr "2025-01-01T00:00:00")])),
         [PyDict.ofList
          [("first_name", .vstr "Ada"), ("last_name", .vstr "Lovelace"),
           ("updated_at", .vstr "2025-01-01T00:00:00")]]) := rfl

/-- Claim C10: the customer-data save-then-load round trip returns the saved
value only when the value does not contain the field marker (here
`"ICP: "`) as a substring: saving prepends the marker and loading strips it
with Python `replace`, which removes every occurrence, so any value
containing the marker comes back strictly shorter and therefore different. -/
theorem customer_roundtrip_only_without_marker (v : String)
    (h : ∃ u w, v.data = u ++ ("ICP: ".data ++ w)) :
    load_ideal_customer_field (save_ideal_customer_field v) ≠ v := by
  have hdata : (save_ideal_customer_field v).data = "ICP: ".data ++ v.data := rfl
  have hne0 : "ICP: ".data ≠ ([] : List Char) := by decide
  have hnes : save_ideal_customer_field v ≠ "" := by
    intro hc
    have h0 : (save_ideal_customer_field v).data = [] := by rw [hc]
    rw [hdata] at h0
    rcases List.append_eq_nil.mp h0 with ⟨h1, -⟩
    exact hne0 h1
  have hpre : "ICP: ".data.isPrefixOf (save_ideal_customer_field v).data = true := by
    rw [hdata]
    exact List.isPrefixOf_iff_prefix.mpr (List.prefix_append _ _)
  have hload : load_ideal_customer_field (save_ideal_customer_field v)
      = pyStrip (pyReplace (save_ideal_customer_field v) "ICP: ") := by
    unfold load_ideal_customer_field strip_markers
    rw [if_neg hnes]
    unfold strip_markers_loop
    rw [if_pos hpre]
  have hrep : (pyReplaceChars (save_ideal_customer_field v).data "ICP: ".data).length
      + "ICP: ".data.length ≤ v.data.length := by
    rw [hdata, pyReplaceChars_head_self _ _ hne0]
    exact pyReplaceChars_infix_length "ICP: ".data hne0 v.data h
  intro heq
  have hlen : (load_ideal_customer_field (save_ideal_customer_field v)).data.length
      = v.data.length := by rw [heq]
  rw [hload] at hlen
  have hstripd : (pyStrip (pyReplace (save_ideal_customer_field v) "ICP: ")).data
      = pyStripChars (pyReplaceChars (save_ideal_customer_field v).data "ICP: ".data) := rfl
  rw [hstripd] at hlen
  have hstrip := pyStripChars_length_le
    (pyReplaceChars (save_ideal_customer_field v).data "ICP: ".data)
  have hmlen : "ICP: ".data.length = 5 := by decide
  omega

theorem customer_roundtrip_only_without_marker_witness :
    (∃ u w, ("xICP: y" : String).data = u ++ (("ICP: " : String).data ++ w)) ∧
    load_ideal_customer_field (save_ideal_customer_field "xICP: y") ≠ "xICP: y" :=
  ⟨⟨"x".data, "y".data, by decide⟩,
   customer_roundtrip_only_without_marker "xICP: y" ⟨"x".data, "y".data, by decide⟩⟩
